import Mathlib

/-!
# Verification of the gesture-detection pipeline

Shallow embedding of the gesture detection core of the repository
(`src/src/main/GesturePreprocessor.hpp` and `src/src/main/GestureClassifier.hpp`),
together with theorems settling the specified properties.

Machine integers are modelled as `ℕ` (unsigned) or `ℤ` (signed), with explicit
wrap-around (`% 2^16`, `% 2^32`, two's-complement reinterpretation) applied at
the points where the C++ code performs a narrowing cast or an unsigned
subtraction that may wrap.
-/

set_option autoImplicit false
set_option maxRecDepth 8000

namespace Gesture

/-! ## Machine-arithmetic helpers -/

/-- Subtraction of `uint16_t` values: `a - b` computed modulo `2^16` (operands are taken
modulo `2^16`, matching values stored in 16-bit registers). -/
def u16sub (a b : ℕ) : ℕ :=
  (a % 65536 + 65536 - b % 65536) % 65536

/-- Subtraction of `uint32_t` values: `a - b` computed modulo `2^32`. -/
def u32sub (a b : ℕ) : ℕ :=
  (a % 4294967296 + 4294967296 - b % 4294967296) % 4294967296

/-- Reinterpretation of an integer as an `int16_t`: wrap into `[-32768, 32767]`. -/
def toI16 (x : ℤ) : ℤ :=
  (x + 32768) % 65536 - 32768

/-- Reinterpretation of an integer as an `int32_t`: wrap into `[-2^31, 2^31)`. -/
def toI32 (x : ℤ) : ℤ :=
  (x + 2147483648) % 4294967296 - 2147483648

/-! ## Constants (from `GesturePreprocessor.hpp` and `GestureClassifier.hpp`) -/

def D_MIN_MM : ℕ := 30
def D_MAX_MM : ℕ := 140
def ENTER_COUNT : ℕ := 1
def EXIT_COUNT : ℕ := 2
def MIN_EPISODE_MS : ℕ := 20
def MAX_EPISODE_MS : ℕ := 2000
def MIN_SWING_MM : ℕ := 5
def NEAR_LAYER_TH_MM : ℕ := 20
def COOLDOWN_MS : ℕ := 5
def INVALID_RESET_COUNT : ℕ := 50
def GAP_MIN : ℕ := 5
def GAP_MAX : ℕ := 1500

/-! ## Types (`GestureTypes.hpp`, `GesturePreprocessor.hpp`) -/

/-- The `enum class GestureDir` from `GestureTypes.hpp`. -/
inductive GestureDir
  | None
  | Left
  | Right
  | Up
  | Down
  | Tap
deriving DecidableEq

/-- The `enum class GestureEvent` from `GestureTypes.hpp`. -/
inductive GestureEvent
  | None
  | EpisodeReady
deriving DecidableEq

/-- The `struct GestureEpisode` from `GesturePreprocessor.hpp`.  `uint16_t` /
`uint32_t` / `uint8_t` fields are modelled as `ℕ`, `int16_t` as `ℤ`. -/
structure GestureEpisode where
  tStartMs : ℕ
  tEndMs : ℕ
  dMin : Fin 3 → ℕ
  dMax : Fin 3 → ℕ
  sampleCount : ℕ
  winnerChanges : ℕ
  firstSeenMs : Fin 3 → ℕ
  lastSeenMs : Fin 3 → ℕ
  maxApproachVel : Fin 3 → ℤ

/-- The member-initializer values of `struct GestureEpisode`. -/
def emptyEpisode : GestureEpisode where
  tStartMs := 0
  tEndMs := 0
  dMin := fun _ => 65535
  dMax := fun _ => 0
  sampleCount := 0
  winnerChanges := 0
  firstSeenMs := fun _ => 0
  lastSeenMs := fun _ => 0
  maxApproachVel := fun _ => 0

/-! ## Classifier (`GestureClassifier.hpp`) -/

/-- The `swingOf` lambda in `classifyEpisode`: 0 for the `0xFFFF` sentinel,
otherwise the `uint16_t` difference `dMax[i] - dMin[i]`. -/
def swingOf (ep : GestureEpisode) (i : Fin 3) : ℕ :=
  if ep.dMin i = 65535 then 0 else u16sub (ep.dMax i) (ep.dMin i)

/-- Value `maxV` in `classifyEpisode` / `finalizeEpisode`: the running maximum of the
three `maxApproachVel` entries. -/
def maxVof (ep : GestureEpisode) : ℤ :=
  max (ep.maxApproachVel 0) (max (ep.maxApproachVel 1) (ep.maxApproachVel 2))

/-- The tap condition of `classifyEpisode` (the nested
`activeL && activeR` / `swingL > 20 && swingR > 20 && maxV >= 60` tests,
flattened). -/
def tapCond (ep : GestureEpisode) : Prop :=
  0 < swingOf ep 0 ∧ 0 < swingOf ep 1 ∧
    20 < swingOf ep 0 ∧ 20 < swingOf ep 1 ∧ 60 ≤ maxVof ep

/-- The shared outer condition of the horizontal-swipe branch:
`activeL && activeR && tL && tR && (swingL > 5 || swingR > 5) && !activeT`. -/
def hOuterCond (ep : GestureEpisode) : Prop :=
  0 < swingOf ep 0 ∧ 0 < swingOf ep 1 ∧
    ep.firstSeenMs 0 ≠ 0 ∧ ep.firstSeenMs 1 ≠ 0 ∧
    (5 < swingOf ep 0 ∨ 5 < swingOf ep 1) ∧ ¬ 0 < swingOf ep 2

/-- The condition under which `classifyEpisode` returns `Right`. -/
def hRightCond (ep : GestureEpisode) : Prop :=
  hOuterCond ep ∧ ep.firstSeenMs 0 < ep.firstSeenMs 1 ∧
    GAP_MIN ≤ u32sub (ep.firstSeenMs 1) (ep.firstSeenMs 0) ∧
    u32sub (ep.firstSeenMs 1) (ep.firstSeenMs 0) ≤ GAP_MAX

/-- The condition under which `classifyEpisode` returns `Left`. -/
def hLeftCond (ep : GestureEpisode) : Prop :=
  hOuterCond ep ∧ ep.firstSeenMs 1 < ep.firstSeenMs 0 ∧
    GAP_MIN ≤ u32sub (ep.firstSeenMs 0) (ep.firstSeenMs 1) ∧
    u32sub (ep.firstSeenMs 0) (ep.firstSeenMs 1) ≤ GAP_MAX

/-- Value `tBottom` in `classifyEpisode`: the earlier of the left/right first-seen
times, considered only for active sensors. -/
def tBottomOf (ep : GestureEpisode) : ℕ :=
  let t1 := if 0 < swingOf ep 0 ∧ ep.firstSeenMs 0 ≠ 0 then ep.firstSeenMs 0 else 0
  if 0 < swingOf ep 1 ∧ ep.firstSeenMs 1 ≠ 0 ∧ (t1 = 0 ∨ ep.firstSeenMs 1 < t1) then
    ep.firstSeenMs 1
  else t1

/-- The shared outer condition of the vertical-swipe branch:
`tBottom && tTop && (swingL > 5 || swingR > 5 || swingT > 5)`. -/
def vOuterCond (ep : GestureEpisode) : Prop :=
  tBottomOf ep ≠ 0 ∧ ep.firstSeenMs 2 ≠ 0 ∧
    (5 < swingOf ep 0 ∨ 5 < swingOf ep 1 ∨ 5 < swingOf ep 2)

/-- The condition under which `classifyEpisode` returns `Up`. -/
def vUpCond (ep : GestureEpisode) : Prop :=
  vOuterCond ep ∧ tBottomOf ep < ep.firstSeenMs 2 ∧
    GAP_MIN ≤ u32sub (ep.firstSeenMs 2) (tBottomOf ep) ∧
    u32sub (ep.firstSeenMs 2) (tBottomOf ep) ≤ GAP_MAX

/-- The condition under which `classifyEpisode` returns `Down`. -/
def vDownCond (ep : GestureEpisode) : Prop :=
  vOuterCond ep ∧ ep.firstSeenMs 2 < tBottomOf ep ∧
    GAP_MIN ≤ u32sub (tBottomOf ep) (ep.firstSeenMs 2) ∧
    u32sub (tBottomOf ep) (ep.firstSeenMs 2) ≤ GAP_MAX

instance (ep : GestureEpisode) : Decidable (tapCond ep) := by
  unfold tapCond; infer_instance

instance (ep : GestureEpisode) : Decidable (hOuterCond ep) := by
  unfold hOuterCond; infer_instance

instance (ep : GestureEpisode) : Decidable (hRightCond ep) := by
  unfold hRightCond; infer_instance

instance (ep : GestureEpisode) : Decidable (hLeftCond ep) := by
  unfold hLeftCond; infer_instance

instance (ep : GestureEpisode) : Decidable (vOuterCond ep) := by
  unfold vOuterCond; infer_instance

instance (ep : GestureEpisode) : Decidable (vUpCond ep) := by
  unfold vUpCond; infer_instance

instance (ep : GestureEpisode) : Decidable (vDownCond ep) := by
  unfold vDownCond; infer_instance

/-- Function `classifyEpisode` from `GestureClassifier.hpp`.  The C++ early-`return`
cascade is rendered as a first-match `if`-chain over the rule conditions above
(each condition is the flattening of the corresponding nested `if`s in the
source; the guarded `tR > tL` subtraction of two `uint32_t` values is `u32sub`). -/
def classifyEpisode (ep : GestureEpisode) : GestureDir :=
  if tapCond ep then GestureDir.Tap
  else if hRightCond ep then GestureDir.Right
  else if hLeftCond ep then GestureDir.Left
  else if vUpCond ep then GestureDir.Up
  else if vDownCond ep then GestureDir.Down
  else GestureDir.None

/-! ## Preprocessor state (`GesturePreprocessor.hpp`) -/

/-- The `enum class State` of `GesturePreprocessor`. -/
inductive FsmState
  | Idle
  | Tracking
  | Cooldown
deriving DecidableEq

/-- The private data members of `class GesturePreprocessor`.  `uint8_t`
counters are `ℕ` (wrapped modulo 256 at the increment sites), `rawIdx` is kept
in `Fin 3` (the code keeps it in `{0,1,2}` via `% 3`), `lastWinner` (`int8_t`,
only ever `-1..2`) is `ℤ`. -/
structure PreState where
  state : FsmState
  enterCount : ℕ
  exitCount : ℕ
  cooldownUntil : ℕ
  rawHist : Fin 3 → Fin 3 → ℕ
  rawIdx : Fin 3
  filt : Fin 3 → ℕ
  invalidCount : Fin 3 → ℕ
  lastFiltForVel : Fin 3 → ℕ
  lastTimeForVel : Fin 3 → ℕ
  ep : GestureEpisode
  lastWinner : ℤ

/-- Method `reset()` of `GesturePreprocessor`; also the constructor's state. -/
def resetState : PreState where
  state := FsmState.Idle
  enterCount := 0
  exitCount := 0
  cooldownUntil := 0
  rawHist := fun _ _ => 0
  rawIdx := 0
  filt := fun _ => 0
  invalidCount := fun _ => 0
  lastFiltForVel := fun _ => 0
  lastTimeForVel := fun _ => 0
  ep := emptyEpisode
  lastWinner := -1

/-- Predicate `inBand(d)`: `d >= D_MIN_MM && d <= D_MAX_MM`. -/
def inBand (d : ℕ) : Prop :=
  D_MIN_MM ≤ d ∧ d ≤ D_MAX_MM

instance (d : ℕ) : Decidable (inBand d) := by
  unfold inBand; infer_instance

/-- Function `median3(a, b, c)`: the sorting-network median from the source. -/
def median3 (a b c : ℕ) : ℕ :=
  let p := if a > b then (b, a) else (a, b)
  let q := if p.2 > c then (c, p.2) else (p.2, c)
  let r := if p.1 > q.1 then (q.1, p.1) else (p.1, q.1)
  r.2

/-- The EMA update line of `filterDistances`:
`filt[i] = (uint16_t)((3u * filt[i] + mi) / 4u)`. -/
def emaStep (old cand : ℕ) : ℕ :=
  (3 * old + cand) / 4 % 65536

/-- A raw reading is usable directly: `raw[i] != 0 && raw[i] != 0xFFFF`. -/
def rawValid (r : ℕ) : Prop :=
  r ≠ 0 ∧ r ≠ 65535

instance (r : ℕ) : Decidable (rawValid r) := by
  unfold rawValid; infer_instance

/-- The candidate values `m[i]` of `filterDistances`, computed from the raw
readings and the just-updated history (the current reading has already been
written into slot `idx`). -/
def fdCand (hist : Fin 3 → Fin 3 → ℕ) (raw : Fin 3 → ℕ) (i : Fin 3) : ℕ :=
  if rawValid (raw i) then raw i
  else median3 (hist i 0) (hist i 1) (hist i 2)

/-- Value `zMinFrame` of `filterDistances`: the sequential minimum over the valid
candidates, starting from `0xFFFF`. -/
def fdFrameMin (m : Fin 3 → ℕ) : ℕ :=
  let z0 : ℕ := 65535
  let z1 := if rawValid (m 0) ∧ m 0 < z0 then m 0 else z0
  let z2 := if rawValid (m 1) ∧ m 1 < z1 then m 1 else z1
  if rawValid (m 2) ∧ m 2 < z2 then m 2 else z2

/-- Method `filterDistances(raw)` of `GesturePreprocessor`: advances the circular
history, computes candidates, and updates `invalidCount`/`filt` per sensor
(all-invalid decay path when no candidate is valid, otherwise the
nearest-layer gate followed by direct set / EMA). -/
def filterDistances (s : PreState) (raw : Fin 3 → ℕ) : PreState :=
  let idx := s.rawIdx + 1
  let hist := fun i j => if j = idx then raw i else s.rawHist i j
  let m := fdCand hist raw
  let zMinFrame := fdFrameMin m
  if zMinFrame = 65535 then
    let newInv := fun i =>
      if s.invalidCount i < 255 then s.invalidCount i + 1 else s.invalidCount i
    { s with
      rawIdx := idx
      rawHist := hist
      invalidCount := newInv
      filt := fun i => if INVALID_RESET_COUNT ≤ newInv i then 0 else s.filt i }
  else
    let zMaxAllowed := (zMinFrame + NEAR_LAYER_TH_MM) % 65536
    let thisValid := fun i => rawValid (m i) ∧ inBand (m i) ∧ m i ≤ zMaxAllowed
    let newInv := fun i =>
      if thisValid i then 0
      else if s.invalidCount i < 255 then s.invalidCount i + 1 else s.invalidCount i
    { s with
      rawIdx := idx
      rawHist := hist
      invalidCount := newInv
      filt := fun i =>
        if thisValid i then
          if s.filt i = 0 then m i else emaStep (s.filt i) (m i)
        else if INVALID_RESET_COUNT ≤ newInv i then 0
        else s.filt i }

/-- Value `zMinFrame` of `update`: the sequential minimum over the in-band smoothed
values, starting from `0xFFFF`. -/
def frameMinFilt (f : Fin 3 → ℕ) : ℕ :=
  let z0 : ℕ := 65535
  let z1 := if inBand (f 0) ∧ f 0 < z0 then f 0 else z0
  let z2 := if inBand (f 1) ∧ f 1 < z1 then f 1 else z1
  if inBand (f 2) ∧ f 2 < z2 then f 2 else z2

/-- The per-sensor validity computation of `update`: a sensor is valid when
some sensor is in band and its own smoothed value is in band and within
`NEAR_LAYER_TH_MM` of the frame minimum (`zMaxAllowed` carries the `uint16_t`
cast of the source). -/
def computeValid (f : Fin 3 → ℕ) (i : Fin 3) : Bool :=
  let zMinFrame := frameMinFilt f
  if zMinFrame = 65535 then false
  else decide (inBand (f i) ∧ f i ≤ (zMinFrame + NEAR_LAYER_TH_MM) % 65536)

/-- Method `startEpisode(nowMs)`: resets the episode's accumulators (`tEndMs` is left
as is, matching the source) and clears `lastWinner`. -/
def startEpisode (s : PreState) (nowMs : ℕ) : PreState :=
  { s with
    ep := { s.ep with
      tStartMs := nowMs
      sampleCount := 0
      winnerChanges := 0
      dMin := fun _ => 65535
      dMax := fun _ => 0
      firstSeenMs := fun _ => 0
      lastSeenMs := fun _ => 0
      maxApproachVel := fun _ => 0 }
    lastWinner := -1 }

/-- The per-sensor `maxApproachVel` update of `appendSample`: `int16_t`
velocity `(dv * 1000) / (int32_t)dt` (C truncating division) folded into the
running maximum.  Guards mirror the source:
`lastFiltForVel[i] != 0 && d != 0 && lastTimeForVel[i] != 0`, then `dt > 0`,
then `dv > 0`. -/
def velUpdate (lastF d : ℕ) (lastT nowMs : ℕ) (cur : ℤ) : ℤ :=
  if lastF ≠ 0 ∧ d ≠ 0 ∧ lastT ≠ 0 then
    let dt := u32sub nowMs lastT
    if 0 < dt then
      let dv := toI16 (toI16 (lastF : ℤ) - toI16 (d : ℤ))
      if 0 < dv then
        let v := toI16 (Int.tdiv (dv * 1000) (toI32 (dt : ℤ)))
        if cur < v then v else cur
      else cur
    else cur
  else cur

/-- The `best`/`winner` fold of `appendSample`: the index of the smallest
valid smoothed value this sample (`-1` when none). -/
def winnerOf (f : Fin 3 → ℕ) (valid : Fin 3 → Bool) : ℤ :=
  let bw0 : ℕ × ℤ := (65535, -1)
  let bw1 := if valid 0 = true ∧ f 0 < bw0.1 then (f 0, (0 : ℤ)) else bw0
  let bw2 := if valid 1 = true ∧ f 1 < bw1.1 then (f 1, (1 : ℤ)) else bw1
  let bw3 := if valid 2 = true ∧ f 2 < bw2.1 then (f 2, (2 : ℤ)) else bw2
  bw3.2

/-- Method `appendSample(valid, nowMs)` of `GesturePreprocessor`.  Per-sensor updates
depend only on that sensor's own fields, so the loop's effect is expressed
pointwise; the winner bookkeeping is the sequential fold `winnerOf`. -/
def appendSample (s : PreState) (valid : Fin 3 → Bool) (nowMs : ℕ) : PreState :=
  let ep := s.ep
  let winner := winnerOf s.filt valid
  let wc :=
    if 0 ≤ winner ∧ 0 ≤ s.lastWinner ∧ winner ≠ s.lastWinner then
      (ep.winnerChanges + 1) % 256
    else ep.winnerChanges
  let lw := if 0 ≤ winner then winner else s.lastWinner
  { s with
    ep := { ep with
      sampleCount := (ep.sampleCount + 1) % 256
      winnerChanges := wc
      firstSeenMs := fun i =>
        if valid i = true ∧ ep.firstSeenMs i = 0 then nowMs else ep.firstSeenMs i
      lastSeenMs := fun i =>
        if valid i = true then nowMs else ep.lastSeenMs i
      maxApproachVel := fun i =>
        if valid i = true then
          velUpdate (s.lastFiltForVel i) (s.filt i) (s.lastTimeForVel i) nowMs
            (ep.maxApproachVel i)
        else ep.maxApproachVel i
      dMin := fun i =>
        if valid i = true ∧ s.filt i < ep.dMin i then s.filt i else ep.dMin i
      dMax := fun i =>
        if valid i = true ∧ ep.dMax i < s.filt i then s.filt i else ep.dMax i }
    lastFiltForVel := fun i => s.filt i
    lastTimeForVel := fun _ => nowMs
    lastWinner := lw }

/-- Value `maxSwing` of `finalizeEpisode`: sequential maximum of the per-sensor
`uint16_t` swings, skipping sensors whose `dMin` is still the `0xFFFF`
sentinel. -/
def epMaxSwing (ep : GestureEpisode) : ℕ :=
  let ms0 : ℕ := 0
  let ms1 := if ep.dMin 0 ≠ 65535 ∧ ms0 < u16sub (ep.dMax 0) (ep.dMin 0) then
      u16sub (ep.dMax 0) (ep.dMin 0) else ms0
  let ms2 := if ep.dMin 1 ≠ 65535 ∧ ms1 < u16sub (ep.dMax 1) (ep.dMin 1) then
      u16sub (ep.dMax 1) (ep.dMin 1) else ms1
  if ep.dMin 2 ≠ 65535 ∧ ms2 < u16sub (ep.dMax 2) (ep.dMin 2) then
    u16sub (ep.dMax 2) (ep.dMin 2) else ms2

/-- Method `finalizeEpisode(nowMs)`: sets `tEndMs`, then validates the episode.
Returns the updated episode, the `bool` result, and the list of
warning messages passed to `Logger::log(Warn, ...)` on this call. -/
def finalizeEpisode (ep0 : GestureEpisode) (nowMs : ℕ) :
    GestureEpisode × Bool × List String :=
  let ep := { ep0 with tEndMs := nowMs }
  if ep.sampleCount < 2 then
    (ep, false, ["Episode finalize failed: sampleCount < 2"])
  else
    let dur := u32sub ep.tEndMs ep.tStartMs
    if dur < MIN_EPISODE_MS then
      (ep, false, ["Episode finalize failed: duration too short"])
    else if epMaxSwing ep < MIN_SWING_MM ∧ maxVof ep < 200 then
      (ep, false, ["Episode finalize failed: weak swing + weak velocity"])
    else (ep, true, [])

/-- The raw-reading triple of `update` as a `Fin 3`-indexed function. -/
def mkRaw (d0 d1 d2 : ℕ) (i : Fin 3) : ℕ :=
  if i = 0 then d0 else if i = 1 then d1 else d2

/-- Method `update(d0, d1, d2, nowMs)` of `GesturePreprocessor`: filtering, validity
gating, and the Idle/Tracking/Cooldown state machine.  Logger/LED calls are
side-effect-free here; `uint8_t` counter increments wrap modulo 256 and the
`uint32_t` cooldown deadline wraps modulo `2^32`, as in the source. -/
def update (s0 : PreState) (d0 d1 d2 nowMs : ℕ) : PreState × GestureEvent :=
  let s := filterDistances s0 (mkRaw d0 d1 d2)
  let valid := computeValid s.filt
  let anyValid := valid 0 = true ∨ valid 1 = true ∨ valid 2 = true
  match s.state with
  | FsmState.Idle =>
    if anyValid then
      if ENTER_COUNT ≤ (s.enterCount + 1) % 256 then
        let s1 := appendSample (startEpisode s nowMs) valid nowMs
        ({ s1 with state := FsmState.Tracking, enterCount := 0, exitCount := 0 },
          GestureEvent.None)
      else
        ({ s with enterCount := (s.enterCount + 1) % 256, exitCount := 0 },
          GestureEvent.None)
    else
      ({ s with enterCount := 0, exitCount := 0 }, GestureEvent.None)
  | FsmState.Tracking =>
    if anyValid then
      let s1 := appendSample { s with exitCount := 0 } valid nowMs
      if MAX_EPISODE_MS < u32sub nowMs s1.ep.tStartMs then
        let r := finalizeEpisode s1.ep nowMs
        if r.2.1 = true then
          ({ s1 with
              ep := r.1
              state := FsmState.Cooldown
              cooldownUntil := (nowMs + COOLDOWN_MS) % 4294967296 },
            GestureEvent.EpisodeReady)
        else (resetState, GestureEvent.None)
      else (s1, GestureEvent.None)
    else
      if EXIT_COUNT ≤ (s.exitCount + 1) % 256 then
        let r := finalizeEpisode s.ep nowMs
        if r.2.1 = true then
          ({ s with
              exitCount := (s.exitCount + 1) % 256
              ep := r.1
              state := FsmState.Cooldown
              cooldownUntil := (nowMs + COOLDOWN_MS) % 4294967296 },
            GestureEvent.EpisodeReady)
        else (resetState, GestureEvent.None)
      else ({ s with exitCount := (s.exitCount + 1) % 256 }, GestureEvent.None)
  | FsmState.Cooldown =>
    if ¬ anyValid ∧ s.cooldownUntil ≤ nowMs then (resetState, GestureEvent.None)
    else (s, GestureEvent.None)

/-! ## Concrete episodes used as inputs below -/

/-- Index-function constructor for `Fin 3 → ℕ` triples. -/
def mk3 (a b c : ℕ) (i : Fin 3) : ℕ :=
  if i = 0 then a else if i = 1 then b else c

/-- Index-function constructor for `Fin 3 → ℤ` triples. -/
def mk3i (a b c : ℤ) (i : Fin 3) : ℤ :=
  if i = 0 then a else if i = 1 then b else c

/-- Episode: left sensor seen first (100 ms), right sensor 130 ms, both swings
30, top inactive, no approach velocity. -/
def epLeftFirst : GestureEpisode where
  tStartMs := 0
  tEndMs := 400
  dMin := mk3 50 60 65535
  dMax := mk3 80 90 0
  sampleCount := 5
  winnerChanges := 1
  firstSeenMs := mk3 100 130 0
  lastSeenMs := mk3 350 350 0
  maxApproachVel := mk3i 0 0 0

/-- Episode: right sensor seen first (100 ms), left sensor 130 ms, both swings
25, top inactive, no approach velocity. -/
def epRightFirst : GestureEpisode where
  tStartMs := 0
  tEndMs := 400
  dMin := mk3 55 60 65535
  dMax := mk3 80 85 0
  sampleCount := 5
  winnerChanges := 1
  firstSeenMs := mk3 130 100 0
  lastSeenMs := mk3 350 350 0
  maxApproachVel := mk3i 0 0 0

/-! ## C1: direction of the horizontal swipe rule -/

/--
C1 counterexample.  The claim states that an episode with left first-seen
100 ms, right first-seen 130 ms, both swings 30 and top inactive classifies as
`Left` (right-earlier → `Right`, left-earlier → `Left`).  On the code the very
same episode classifies as `Right`: `classifyEpisode` returns `Right` on the
`tR > tL` branch, i.e. when the LEFT sensor was seen first.
-/
theorem C1_counterexample :
    classifyEpisode epLeftFirst = GestureDir.Right ∧
      classifyEpisode epLeftFirst ≠ GestureDir.Left := by
  decide

/--
C1 (amended): for every episode in which both the left and right sensors are
active (nonzero swing), both have nonzero first-seen times, at least one of
their swings exceeds 5, the top sensor is inactive, and the tap rule (checked
first) does not match: if the LEFT sensor's first-seen time is earlier and the
gap is within `[GAP_MIN, GAP_MAX]`, `classifyEpisode` returns `Right`; if the
RIGHT sensor's first-seen time is earlier and the gap is within the bounds, it
returns `Left`.
-/
theorem C1_swipe_direction (ep : GestureEpisode)
    (hL : 0 < swingOf ep 0) (hR : 0 < swingOf ep 1)
    (htL : ep.firstSeenMs 0 ≠ 0) (htR : ep.firstSeenMs 1 ≠ 0)
    (hsw : 5 < swingOf ep 0 ∨ 5 < swingOf ep 1)
    (hT : ¬ 0 < swingOf ep 2)
    (htap : ¬ tapCond ep) :
    (ep.firstSeenMs 0 < ep.firstSeenMs 1 →
      GAP_MIN ≤ u32sub (ep.firstSeenMs 1) (ep.firstSeenMs 0) →
      u32sub (ep.firstSeenMs 1) (ep.firstSeenMs 0) ≤ GAP_MAX →
      classifyEpisode ep = GestureDir.Right) ∧
    (ep.firstSeenMs 1 < ep.firstSeenMs 0 →
      GAP_MIN ≤ u32sub (ep.firstSeenMs 0) (ep.firstSeenMs 1) →
      u32sub (ep.firstSeenMs 0) (ep.firstSeenMs 1) ≤ GAP_MAX →
      classifyEpisode ep = GestureDir.Left) := by
  constructor
  · intro h1 h2 h3
    unfold classifyEpisode
    rw [if_neg htap, if_pos (show hRightCond ep from
      ⟨⟨hL, hR, htL, htR, hsw, hT⟩, h1, h2, h3⟩)]
  · intro h1 h2 h3
    have hnr : ¬ hRightCond ep := by
      rintro ⟨-, hlt, -, -⟩
      omega
    unfold classifyEpisode
    rw [if_neg htap, if_neg hnr, if_pos (show hLeftCond ep from
      ⟨⟨hL, hR, htL, htR, hsw, hT⟩, h1, h2, h3⟩)]

/-- C1 witness: the two scenarios of the amended claim, obtained from
`C1_swipe_direction` at the concrete episodes. -/
theorem C1_witness :
    classifyEpisode epLeftFirst = GestureDir.Right ∧
      classifyEpisode epRightFirst = GestureDir.Left :=
  ⟨(C1_swipe_direction epLeftFirst (by decide) (by decide) (by decide)
      (by decide) (by decide) (by decide) (by decide)).1
      (by decide) (by decide) (by decide),
   (C1_swipe_direction epRightFirst (by decide) (by decide) (by decide)
      (by decide) (by decide) (by decide) (by decide)).2
      (by decide) (by decide) (by decide)⟩

/-! ## C4: the tap rule -/

/--
C4: `classifyEpisode` returns `Tap` for every episode in which both the left
and right swings exceed 20 and the maximum peak approach velocity across all
three sensors is at least 60; the tap rule is checked before the swipe rules
(the conclusion holds whatever the timing fields are).
-/
theorem C4_tap_rule (ep : GestureEpisode)
    (h1 : 20 < swingOf ep 0) (h2 : 20 < swingOf ep 1)
    (h3 : 60 ≤ maxVof ep) :
    classifyEpisode ep = GestureDir.Tap := by
  unfold classifyEpisode
  rw [if_pos (show tapCond ep from ⟨by omega, by omega, h1, h2, h3⟩)]

/-- Episode for the C4 scenario: left swing 45, right swing 50, peak approach
velocity 150; the timing fields would also match the horizontal swipe rule,
showing the tap rule is checked first. -/
def epTap : GestureEpisode where
  tStartMs := 0
  tEndMs := 300
  dMin := mk3 50 40 65535
  dMax := mk3 95 90 0
  sampleCount := 6
  winnerChanges := 0
  firstSeenMs := mk3 100 130 0
  lastSeenMs := mk3 250 250 0
  maxApproachVel := mk3i 150 0 0

/-- C4 witness: the tap scenario (swings 45/50, velocity 150) via
`C4_tap_rule`. -/
theorem C4_witness : classifyEpisode epTap = GestureDir.Tap :=
  C4_tap_rule epTap (by decide) (by decide) (by decide)

/-! ## C7: totality and purity of the classifier -/

/-- An episode matching none of the five rule conditions classifies as
`None` (shared helper). -/
lemma classify_eq_none_of_not_matched (ep : GestureEpisode)
    (h1 : ¬ tapCond ep) (h2 : ¬ (hRightCond ep ∨ hLeftCond ep))
    (h3 : ¬ (vUpCond ep ∨ vDownCond ep)) :
    classifyEpisode ep = GestureDir.None := by
  unfold classifyEpisode
  rw [if_neg h1, if_neg (fun h => h2 (Or.inl h)), if_neg (fun h => h2 (Or.inr h)),
    if_neg (fun h => h3 (Or.inl h)), if_neg (fun h => h3 (Or.inr h))]

/--
C7: `classifyEpisode` is a pure total function of the episode value — equal
inputs give equal outputs — and every episode matching none of the tap or
swipe rules yields the explicit `None` label.
-/
theorem C7_total_pure (ep : GestureEpisode) :
    classifyEpisode ep = classifyEpisode ep ∧
      (¬ tapCond ep → ¬ (hRightCond ep ∨ hLeftCond ep) →
        ¬ (vUpCond ep ∨ vDownCond ep) → classifyEpisode ep = GestureDir.None) :=
  ⟨rfl, fun h1 h2 h3 => classify_eq_none_of_not_matched ep h1 h2 h3⟩

/-- C7 witness: the freshly initialized episode matches no rule and classifies
as `None`, via `C7_total_pure`. -/
theorem C7_witness : classifyEpisode emptyEpisode = GestureDir.None :=
  (C7_total_pure emptyEpisode).2 (by decide) (by decide) (by decide)

/-! ## C8: sentinel sensors report swing 0 -/

/--
C8: for every episode and sensor whose per-sensor minimum is still the
`0xFFFF` sentinel (never a valid sample), the classifier's swing for that
sensor is exactly 0 — never the wrapped `uint16_t` value of
`dMax - 0xFFFF` — and `finalizeEpisode`'s maximum-swing computation likewise
gives that sensor no contribution: it equals the maximum of the (sentinel-
guarded) per-sensor swings.
-/
theorem C8_sentinel_swing (ep : GestureEpisode) (i : Fin 3)
    (h : ep.dMin i = 65535) :
    swingOf ep i = 0 ∧
      epMaxSwing ep = max (swingOf ep 0) (max (swingOf ep 1) (swingOf ep 2)) := by
  constructor
  · unfold swingOf
    rw [if_pos h]
  · unfold epMaxSwing swingOf
    simp only [Nat.max_def]
    split_ifs <;> omega

/-- C8 witness: a concrete episode whose top sensor never saw a valid sample:
its swing is 0 and the finalize-side maximum swing ignores it. -/
theorem C8_witness :
    swingOf epLeftFirst 2 = 0 ∧
      epMaxSwing epLeftFirst =
        max (swingOf epLeftFirst 0)
          (max (swingOf epLeftFirst 1) (swingOf epLeftFirst 2)) :=
  C8_sentinel_swing epLeftFirst 2 (by decide)

/-! ## C6: inclusive/exclusive gap boundaries -/

/-- Horizontal-swipe episode family parametrized by the first-seen gap `g`:
left first-seen 100 ms, right `100 + g` ms, swings 10/10, top never seen. -/
def mkHEp (g : ℕ) : GestureEpisode where
  tStartMs := 0
  tEndMs := 600
  dMin := mk3 60 60 65535
  dMax := mk3 70 70 0
  sampleCount := 3
  winnerChanges := 1
  firstSeenMs := fun i => if i = 0 then 100 else if i = 1 then 100 + g else 0
  lastSeenMs := mk3 500 500 0
  maxApproachVel := mk3i 0 0 0

/-- Vertical-swipe episode family parametrized by the first-seen gap `g`:
left (bottom) first-seen 200 ms, top `200 + g` ms, right never seen,
swings 10/0/10. -/
def mkVEp (g : ℕ) : GestureEpisode where
  tStartMs := 0
  tEndMs := 600
  dMin := mk3 60 65535 60
  dMax := mk3 70 0 70
  sampleCount := 3
  winnerChanges := 1
  firstSeenMs := fun i => if i = 0 then 200 else if i = 1 then 0 else 200 + g
  lastSeenMs := mk3 500 0 500
  maxApproachVel := mk3i 0 0 0

/--
C6: in both the horizontal and the vertical swipe rule, a first-seen gap of
exactly `GAP_MIN = 5` ms and a gap of exactly `GAP_MAX = 1500` ms are accepted
(inclusive bounds, covered by the two interval conjuncts at `g = 5` and
`g = 1500`), while a gap of 0 ms or a gap greater than 1500 ms makes the swipe
rule fail so that the episode falls through to `None` when no other rule
matches.
-/
theorem C6_gap_boundaries (g : ℕ) :
    (GAP_MIN ≤ g → g ≤ GAP_MAX → classifyEpisode (mkHEp g) = GestureDir.Right) ∧
    classifyEpisode (mkHEp 0) = GestureDir.None ∧
    (GAP_MAX < g → g + 100 < 4294967296 →
      classifyEpisode (mkHEp g) = GestureDir.None) ∧
    (GAP_MIN ≤ g → g ≤ GAP_MAX → classifyEpisode (mkVEp g) = GestureDir.Up) ∧
    classifyEpisode (mkVEp 0) = GestureDir.None ∧
    (GAP_MAX < g → g + 200 < 4294967296 →
      classifyEpisode (mkVEp g) = GestureDir.None) := by
  have hsw0 : swingOf (mkHEp g) 0 = 10 := by simp [swingOf, mkHEp, mk3, u16sub]
  have hsw1 : swingOf (mkHEp g) 1 = 10 := by simp [swingOf, mkHEp, mk3, u16sub]
  have hsw2 : swingOf (mkHEp g) 2 = 0 := by simp [swingOf, mkHEp, mk3, u16sub]
  have hmv : maxVof (mkHEp g) = 0 := by simp [maxVof, mkHEp, mk3i]
  have hf0 : (mkHEp g).firstSeenMs 0 = 100 := rfl
  have hf1 : (mkHEp g).firstSeenMs 1 = 100 + g := rfl
  have hf2 : (mkHEp g).firstSeenMs 2 = 0 := rfl
  have vsw0 : swingOf (mkVEp g) 0 = 10 := by simp [swingOf, mkVEp, mk3, u16sub]
  have vsw1 : swingOf (mkVEp g) 1 = 0 := by simp [swingOf, mkVEp, mk3, u16sub]
  have vsw2 : swingOf (mkVEp g) 2 = 10 := by simp [swingOf, mkVEp, mk3, u16sub]
  have vmv : maxVof (mkVEp g) = 0 := by simp [maxVof, mkVEp, mk3i]
  have vf0 : (mkVEp g).firstSeenMs 0 = 200 := rfl
  have vf2 : (mkVEp g).firstSeenMs 2 = 200 + g := rfl
  have vtb : tBottomOf (mkVEp g) = 200 := by
    simp [tBottomOf, mkVEp, mk3, swingOf, u16sub]
  have htapH : ¬ tapCond (mkHEp g) := by
    rintro ⟨-, -, h20, -, -⟩
    omega
  have htapV : ¬ tapCond (mkVEp g) := by
    rintro ⟨-, h0, -, -, -⟩
    rw [vsw1] at h0
    omega
  have hHnoV : ∀ d, ¬ vUpCond (mkHEp d) ∧ ¬ vDownCond (mkHEp d) := by
    intro d
    constructor <;> rintro ⟨⟨-, ht, -⟩, -⟩ <;> exact ht rfl
  have hVnoH : ∀ d, ¬ hRightCond (mkVEp d) ∧ ¬ hLeftCond (mkVEp d) := by
    intro d
    constructor <;> rintro ⟨⟨-, h0, -⟩, -⟩ <;>
      exact absurd h0 (by rw [show swingOf (mkVEp d) 1 = 0 from rfl]; omega)
  refine ⟨fun hg1 hg2 => ?_, ?_, fun hg1 hg2 => ?_, fun hg1 hg2 => ?_, ?_,
    fun hg1 hg2 => ?_⟩
  · have hgap : u32sub ((mkHEp g).firstSeenMs 1) ((mkHEp g).firstSeenMs 0) = g := by
      rw [hf0, hf1]; unfold u32sub GAP_MAX at *; omega
    unfold classifyEpisode
    rw [if_neg htapH, if_pos (show hRightCond (mkHEp g) from
      ⟨⟨by omega, by omega, by rw [hf0]; omega, by rw [hf1]; omega,
        Or.inl (by omega), by omega⟩,
       by rw [hf0, hf1]; unfold GAP_MIN at hg1; omega,
       by rw [hgap]; exact hg1, by rw [hgap]; exact hg2⟩)]
  · decide
  · have hgap : u32sub ((mkHEp g).firstSeenMs 1) ((mkHEp g).firstSeenMs 0) = g := by
      rw [hf0, hf1]; unfold u32sub; omega
    have hnr : ¬ hRightCond (mkHEp g) := by
      rintro ⟨-, -, -, hle⟩
      rw [hgap] at hle
      unfold GAP_MAX at *
      omega
    have hnl : ¬ hLeftCond (mkHEp g) := by
      rintro ⟨-, hlt, -, -⟩
      rw [hf0, hf1] at hlt
      omega
    exact classify_eq_none_of_not_matched (mkHEp g) htapH
      (by rintro (h | h) <;> [exact hnr h; exact hnl h])
      (by rintro (h | h) <;> [exact (hHnoV g).1 h; exact (hHnoV g).2 h])
  · have hgap : u32sub ((mkVEp g).firstSeenMs 2) (tBottomOf (mkVEp g)) = g := by
      rw [vtb, vf2]; unfold u32sub GAP_MAX at *; omega
    unfold classifyEpisode
    rw [if_neg htapV, if_neg (hVnoH g).1, if_neg (hVnoH g).2,
      if_pos (show vUpCond (mkVEp g) from
        ⟨⟨by rw [vtb]; omega, by rw [vf2]; omega, Or.inl (by omega)⟩,
         by rw [vtb, vf2]; unfold GAP_MIN at hg1; omega,
         by rw [hgap]; exact hg1, by rw [hgap]; exact hg2⟩)]
  · decide
  · have hgap : u32sub ((mkVEp g).firstSeenMs 2) (tBottomOf (mkVEp g)) = g := by
      rw [vtb, vf2]; unfold u32sub; omega
    have hnu : ¬ vUpCond (mkVEp g) := by
      rintro ⟨-, -, -, hle⟩
      rw [hgap] at hle
      unfold GAP_MAX at *
      omega
    have hnd : ¬ vDownCond (mkVEp g) := by
      rintro ⟨-, hlt, -, -⟩
      rw [vtb, vf2] at hlt
      omega
    exact classify_eq_none_of_not_matched (mkVEp g) htapV
      (by rintro (h | h) <;> [exact (hVnoH g).1 h; exact (hVnoH g).2 h])
      (by rintro (h | h) <;> [exact hnu h; exact hnd h])

/-- C6 witness: the boundary gaps instantiated — 5 ms and 1500 ms accepted for
both swipe axes, 0 ms and 1501 ms rejected, via `C6_gap_boundaries`. -/
theorem C6_witness :
    classifyEpisode (mkHEp 5) = GestureDir.Right ∧
      classifyEpisode (mkHEp 1500) = GestureDir.Right ∧
      classifyEpisode (mkHEp 0) = GestureDir.None ∧
      classifyEpisode (mkHEp 1501) = GestureDir.None ∧
      classifyEpisode (mkVEp 5) = GestureDir.Up ∧
      classifyEpisode (mkVEp 1500) = GestureDir.Up ∧
      classifyEpisode (mkVEp 0) = GestureDir.None ∧
      classifyEpisode (mkVEp 1501) = GestureDir.None :=
  ⟨(C6_gap_boundaries 5).1 (by decide) (by decide),
   (C6_gap_boundaries 1500).1 (by decide) (by decide),
   (C6_gap_boundaries 0).2.1,
   (C6_gap_boundaries 1501).2.2.1 (by decide) (by decide),
   (C6_gap_boundaries 5).2.2.2.1 (by decide) (by decide),
   (C6_gap_boundaries 1500).2.2.2.1 (by decide) (by decide),
   (C6_gap_boundaries 0).2.2.2.2.1,
   (C6_gap_boundaries 1501).2.2.2.2.2 (by decide) (by decide)⟩

/-! ## C2: the finalize contract -/

/--
C2: `finalizeEpisode(nowMs)` sets the episode end time to `nowMs`, and it
returns failure exactly when the accepted sample count is below 2, or the
episode span is below `MIN_EPISODE_MS`, or the largest per-sensor swing is
below `MIN_SWING_MM` while the largest peak approach velocity is below the
velocity floor 200; every failure logs exactly a warning (the warning list is
nonempty iff the result is failure).  Hypotheses: the caller's clock is
monotonic (`tStartMs ≤ nowMs`) and `nowMs` is a `uint32_t` value.
-/
theorem C2_finalize_spec (ep : GestureEpisode) (nowMs : ℕ)
    (h1 : ep.tStartMs ≤ nowMs) (h2 : nowMs < 4294967296) :
    (finalizeEpisode ep nowMs).1.tEndMs = nowMs ∧
      ((finalizeEpisode ep nowMs).2.1 = false ↔
        (ep.sampleCount < 2 ∨ nowMs - ep.tStartMs < MIN_EPISODE_MS ∨
          (epMaxSwing ep < MIN_SWING_MM ∧ maxVof ep < 200))) ∧
      ((finalizeEpisode ep nowMs).2.1 = false ↔
        (finalizeEpisode ep nowMs).2.2 ≠ []) := by
  have hdur : u32sub nowMs ep.tStartMs = nowMs - ep.tStartMs := by
    unfold u32sub
    omega
  have hsw : epMaxSwing { ep with tEndMs := nowMs } = epMaxSwing ep := rfl
  have hmv : maxVof { ep with tEndMs := nowMs } = maxVof ep := rfl
  unfold finalizeEpisode
  simp only [hdur, hsw, hmv]
  split_ifs with hc1 hc2 hc3
  · exact ⟨rfl, ⟨fun _ => Or.inl hc1, fun _ => rfl⟩,
      ⟨fun _ => by simp, fun _ => rfl⟩⟩
  · exact ⟨rfl, ⟨fun _ => Or.inr (Or.inl hc2), fun _ => rfl⟩,
      ⟨fun _ => by simp, fun _ => rfl⟩⟩
  · exact ⟨rfl, ⟨fun _ => Or.inr (Or.inr hc3), fun _ => rfl⟩,
      ⟨fun _ => by simp, fun _ => rfl⟩⟩
  · refine ⟨rfl, ⟨fun h => absurd h (by simp), fun hA => ?_⟩,
      ⟨fun h => absurd h (by simp), fun h => absurd rfl h⟩⟩
    rcases hA with h | h | h
    · exact absurd h hc1
    · exact absurd h hc2
    · exact absurd h hc3

/-- Episode with a single accepted sample, for the C2 witness. -/
def epOneSample : GestureEpisode where
  tStartMs := 10
  tEndMs := 0
  dMin := mk3 60 65535 65535
  dMax := mk3 60 0 0
  sampleCount := 1
  winnerChanges := 0
  firstSeenMs := mk3 10 0 0
  lastSeenMs := mk3 10 0 0
  maxApproachVel := mk3i 0 0 0

/-- C2 witness: the finalize contract instantiated at a one-sample episode
finalized at 100 ms (a rejected episode). -/
theorem C2_witness :
    (finalizeEpisode epOneSample 100).1.tEndMs = 100 ∧
      ((finalizeEpisode epOneSample 100).2.1 = false ↔
        (epOneSample.sampleCount < 2 ∨ 100 - epOneSample.tStartMs < MIN_EPISODE_MS ∨
          (epMaxSwing epOneSample < MIN_SWING_MM ∧
            maxVof epOneSample < 200))) ∧
      ((finalizeEpisode epOneSample 100).2.1 = false ↔
        (finalizeEpisode epOneSample 100).2.2 ≠ []) :=
  C2_finalize_spec epOneSample 100 (by decide) (by decide)

/-! ## C3: the integer EMA -/

/-- Iterated EMA feeding the same candidate: `emaIter c n old` is the smoothed
value after `n` further accepted samples of value `c`, starting from `old`. -/
def emaIter (cand : ℕ) : ℕ → ℕ → ℕ
  | 0, old => old
  | n + 1, old => emaStep (emaIter cand n old) cand

lemma emaIter_succ_shift (c n old : ℕ) :
    emaIter c (n + 1) old = emaIter c n (emaStep old c) := by
  induction n with
  | zero => rfl
  | succ n ih =>
    show emaStep (emaIter c (n + 1) old) c = _
    rw [ih]
    rfl

/-- For in-band arguments the `uint16_t` cast in `emaStep` is the identity. -/
lemma emaStep_eq (old c : ℕ) (h2 : old ≤ 140) (h4 : c ≤ 140) :
    emaStep old c = (3 * old + c) / 4 := by
  unfold emaStep
  omega

/-- From above (`c ≤ old`), the iteration reaches `c` exactly, in at most
`old - c` steps. -/
lemma ema_reach_from_above :
    ∀ k old c : ℕ, 30 ≤ c → c ≤ 140 → c ≤ old → old ≤ 140 → old - c ≤ k →
      ∃ n, emaIter c n old = c := by
  intro k
  induction k with
  | zero =>
    intro old c _ _ h3 _ h5
    exact ⟨0, by have he : old = c := by omega
                 simp [emaIter, he]⟩
  | succ k ih =>
    intro old c h1 h2 h3 h4 h5
    by_cases he : old = c
    · exact ⟨0, by simp [emaIter, he]⟩
    · have hstep1 : c ≤ emaStep old c := by
        rw [emaStep_eq old c h4 h2]
        omega
      have hstep2 : emaStep old c < old := by
        rw [emaStep_eq old c h4 h2]
        omega
      obtain ⟨n, hn⟩ := ih (emaStep old c) c h1 h2 hstep1 (by omega) (by omega)
      exact ⟨n + 1, by rw [emaIter_succ_shift]; exact hn⟩

/-- From below (`old ≤ c`), the iteration reaches a fixed point, which can be
up to 3 units short of `c` because of the floor division. -/
lemma ema_reach_fix_from_below :
    ∀ k old c : ℕ, 30 ≤ old → old ≤ c → c ≤ 140 → c - old ≤ k →
      ∃ n, emaStep (emaIter c n old) c = emaIter c n old ∧
        c ≤ emaIter c n old + 3 ∧ emaIter c n old ≤ c := by
  intro k
  induction k with
  | zero =>
    intro old c h1 h2 h3 h4
    refine ⟨0, ?_⟩
    have he : old = c := by omega
    simp only [emaIter]
    exact ⟨by rw [emaStep_eq old c (by omega) h3]; omega, by omega, h2⟩
  | succ k ih =>
    intro old c h1 h2 h3 h4
    by_cases hfix : emaStep old c = old
    · refine ⟨0, ?_⟩
      simp only [emaIter]
      refine ⟨hfix, ?_, h2⟩
      rw [emaStep_eq old c (by omega) h3] at hfix
      omega
    · have hge : old ≤ emaStep old c := by
        rw [emaStep_eq old c (by omega) h3]
        omega
      have hlt : old < emaStep old c := by omega
      have hle : emaStep old c ≤ c := by
        rw [emaStep_eq old c (by omega) h3]
        omega
      obtain ⟨n, hn1, hn2, hn3⟩ := ih (emaStep old c) c (by omega) hle h3 (by omega)
      exact ⟨n + 1, by rw [emaIter_succ_shift]; exact ⟨hn1, hn2, hn3⟩⟩

/--
C3 counterexample.  The claim states that for an initialized in-band filter,
repeatedly feeding the same accepted in-band reading converges the smoothed
value exactly to that reading.  With smoothed value 30 and repeated reading
33 (both in the sensing band), the integer EMA `new = (3*old + cand) / 4` is
already stuck: one step returns 30 again, so no number of repetitions ever
reaches 33.
-/
theorem C3_counterexample :
    emaStep 30 33 = 30 ∧ ¬ ∃ n, emaIter 33 n 30 = 33 := by
  have hstep : emaStep 30 33 = 30 := by decide
  have hall : ∀ n, emaIter 33 n 30 = 30 := by
    intro n
    induction n with
    | zero => rfl
    | succ n ih => show emaStep (emaIter 33 n 30) 33 = 30
                   rw [ih, hstep]
  exact ⟨hstep, fun ⟨n, hn⟩ => by rw [hall n] at hn; exact absurd hn (by decide)⟩

/--
C3 (amended): for an initialized filter with in-band smoothed value `old` and
repeated accepted in-band reading `c`, each step `new = (3*old + c) / 4` moves
the smoothed value monotonically toward `c` and never overshoots; the
iteration converges to a fixed point that lies within 3 units below `c`
(exactly `c` when approaching from above; up to 3 short of `c` when
approaching from below, because of the integer floor division).
-/
theorem C3_ema_monotone_convergence (old c : ℕ)
    (h1 : 30 ≤ old) (h2 : old ≤ 140) (h3 : 30 ≤ c) (h4 : c ≤ 140) :
    (old ≤ c → old ≤ emaStep old c ∧ emaStep old c ≤ c) ∧
      (c ≤ old → c ≤ emaStep old c ∧ emaStep old c ≤ old) ∧
      (c ≤ old → ∃ n, emaIter c n old = c) ∧
      (∃ n, emaStep (emaIter c n old) c = emaIter c n old ∧
        c ≤ emaIter c n old + 3 ∧ emaIter c n old ≤ max old c) := by
  have heq := emaStep_eq old c h2 h4
  refine ⟨fun h => ⟨by rw [heq]; omega, by rw [heq]; omega⟩,
    fun h => ⟨by rw [heq]; omega, by rw [heq]; omega⟩,
    fun h => ema_reach_from_above (old - c) old c h3 h4 h h2 le_rfl, ?_⟩
  rcases le_total old c with h | h
  · obtain ⟨n, a, b, d⟩ := ema_reach_fix_from_below (c - old) old c h1 h h4 le_rfl
    exact ⟨n, a, b, le_trans d (le_max_right _ _)⟩
  · obtain ⟨n, hn⟩ := ema_reach_from_above (old - c) old c h3 h4 h h2 le_rfl
    refine ⟨n, ?_, ?_, ?_⟩ <;> rw [hn]
    · rw [emaStep_eq c c h4 h4]
      omega
    · omega
    · exact le_max_right _ _

/-- C3 witness: the amended EMA behaviour instantiated at smoothed value 100
and repeated reading 40. -/
theorem C3_witness :
    (100 ≤ 40 → 100 ≤ emaStep 100 40 ∧ emaStep 100 40 ≤ 40) ∧
      (40 ≤ 100 → 40 ≤ emaStep 100 40 ∧ emaStep 100 40 ≤ 100) ∧
      (40 ≤ 100 → ∃ n, emaIter 40 n 100 = 40) ∧
      (∃ n, emaStep (emaIter 40 n 100) 40 = emaIter 40 n 100 ∧
        40 ≤ emaIter 40 n 100 + 3 ∧ emaIter 40 n 100 ≤ max 100 40) :=
  C3_ema_monotone_convergence 100 40 (by decide) (by decide) (by decide) (by decide)

/-! ## C5: the validity gate of `update` -/

/-- When some sensor is in band, the frame minimum is an in-band value, hence
at most `D_MAX_MM`. -/
lemma frameMinFilt_le (f : Fin 3 → ℕ) (h : frameMinFilt f ≠ 65535) :
    frameMinFilt f ≤ 140 := by
  simp only [frameMinFilt, inBand, D_MIN_MM, D_MAX_MM] at *
  split_ifs at * <;> omega

/-- When no sensor is in band, the frame minimum stays at the sentinel. -/
lemma frameMinFilt_eq_sentinel (f : Fin 3 → ℕ) (h : ∀ j, ¬ inBand (f j)) :
    frameMinFilt f = 65535 := by
  have h0 := h 0
  have h1 := h 1
  have h2 := h 2
  simp only [frameMinFilt]
  split_ifs <;> first | rfl | tauto

/-- The validity computation of `update`, specified: a `true` flag implies the
sensor is in band and within `NEAR_LAYER_TH_MM` of the frame minimum, and an
all-out-of-band frame makes every flag `false`. -/
lemma computeValid_spec (f : Fin 3 → ℕ) (i : Fin 3) :
    (computeValid f i = true →
      inBand (f i) ∧ f i ≤ frameMinFilt f + NEAR_LAYER_TH_MM) ∧
    ((∀ j, ¬ inBand (f j)) → computeValid f i = false) := by
  constructor
  · intro h
    unfold computeValid at h
    by_cases hz : frameMinFilt f = 65535
    · rw [if_pos hz] at h
      exact absurd h (by simp)
    · rw [if_neg hz] at h
      have hle : frameMinFilt f ≤ 140 := frameMinFilt_le f hz
      have h2 := of_decide_eq_true h
      have hmod : (frameMinFilt f + NEAR_LAYER_TH_MM) % 65536 =
          frameMinFilt f + NEAR_LAYER_TH_MM := by
        unfold NEAR_LAYER_TH_MM
        omega
      rw [hmod] at h2
      exact h2
  · intro hj
    unfold computeValid
    rw [if_pos (frameMinFilt_eq_sentinel f hj)]

/--
C5: on every call to `update`, a sensor is marked valid only if its smoothed
distance (after this call's filtering) lies in the sensing band
`[D_MIN_MM, D_MAX_MM]` and within `NEAR_LAYER_TH_MM` of the frame's minimum
in-band smoothed distance; if no sensor has an in-band smoothed value this
sample, every sensor is marked invalid.  (`computeValid` applied to the
post-filter smoothed values is exactly the validity computation `update`
performs.)
-/
theorem C5_validity_gate (s : PreState) (d0 d1 d2 : ℕ) (i : Fin 3) :
    (computeValid (filterDistances s (mkRaw d0 d1 d2)).filt i = true →
      inBand ((filterDistances s (mkRaw d0 d1 d2)).filt i) ∧
        (filterDistances s (mkRaw d0 d1 d2)).filt i ≤
          frameMinFilt (filterDistances s (mkRaw d0 d1 d2)).filt +
            NEAR_LAYER_TH_MM) ∧
    ((∀ j, ¬ inBand ((filterDistances s (mkRaw d0 d1 d2)).filt j)) →
      computeValid (filterDistances s (mkRaw d0 d1 d2)).filt i = false) :=
  computeValid_spec (filterDistances s (mkRaw d0 d1 d2)).filt i

/-- C5 witness: starting from the reset state with all-zero raw readings, no
smoothed value is in band and sensor 0 is marked invalid. -/
theorem C5_witness :
    computeValid (filterDistances resetState (mkRaw 0 0 0)).filt 0 = false :=
  (C5_validity_gate resetState 0 0 0 0).2 (by decide)

/-! ## C9: the smoothed values stay in band or unset -/

/-- The invariant: each smoothed value is 0 (unset) or within the sensing
band `[D_MIN_MM, D_MAX_MM]`. -/
def FiltInv (s : PreState) : Prop :=
  ∀ i, s.filt i = 0 ∨ (D_MIN_MM ≤ s.filt i ∧ s.filt i ≤ D_MAX_MM)

instance (s : PreState) : Decidable (FiltInv s) := by
  unfold FiltInv
  infer_instance

/-- `filterDistances` preserves the band invariant: a smoothed value is only
set from an accepted in-band candidate, updated by the EMA of two in-band
values, cleared to 0, or left unchanged. -/
lemma filtInv_filterDistances (s : PreState) (raw : Fin 3 → ℕ)
    (h : FiltInv s) : FiltInv (filterDistances s raw) := by
  intro i
  simp only [filterDistances]
  split
  · dsimp only
    split_ifs <;> first | exact Or.inl rfl | exact h i
  · dsimp only
    by_cases hv : rawValid
        (fdCand (fun i j => if j = s.rawIdx + 1 then raw i else s.rawHist i j) raw i) ∧
      inBand
        (fdCand (fun i j => if j = s.rawIdx + 1 then raw i else s.rawHist i j) raw i) ∧
      fdCand (fun i j => if j = s.rawIdx + 1 then raw i else s.rawHist i j) raw i ≤
        (fdFrameMin
            (fdCand (fun i j => if j = s.rawIdx + 1 then raw i else s.rawHist i j) raw) +
          NEAR_LAYER_TH_MM) % 65536
    · rw [if_pos hv]
      by_cases hz : s.filt i = 0
      · rw [if_pos hz]
        exact Or.inr hv.2.1
      · rw [if_neg hz]
        rcases h i with h0 | hb
        · exact absurd h0 hz
        · right
          have hband := hv.2.1
          unfold inBand at hband
          unfold D_MIN_MM D_MAX_MM at hband hb ⊢
          rw [emaStep_eq _ _ (by omega) (by omega)]
          omega
    · rw [if_neg hv, if_neg hv]
      split_ifs <;> first | exact Or.inl rfl | exact h i

lemma startEpisode_filt (s : PreState) (n : ℕ) :
    (startEpisode s n).filt = s.filt := rfl

lemma appendSample_filt (s : PreState) (v : Fin 3 → Bool) (n : ℕ) :
    (appendSample s v n).filt = s.filt := rfl

/-- After `update`, the smoothed values either come unchanged from this call's
`filterDistances` or the whole state was reset. -/
lemma update_filt_cases (s : PreState) (d0 d1 d2 nowMs : ℕ) :
    (update s d0 d1 d2 nowMs).1.filt =
        (filterDistances s (mkRaw d0 d1 d2)).filt ∨
      (update s d0 d1 d2 nowMs).1 = resetState := by
  simp only [update]
  cases hst : (filterDistances s (mkRaw d0 d1 d2)).state <;>
    simp only [hst] <;>
    split_ifs <;>
    first
      | (left; rfl)
      | (right; rfl)

/--
C9: after reset (the constructor's state) and after every call to `update`
from a state satisfying the invariant, each per-sensor smoothed value is
either 0 (unset) or lies within the sensing band `[D_MIN_MM, D_MAX_MM]` =
`[30, 140]` mm.
-/
theorem C9_filt_in_band (s : PreState) (d0 d1 d2 nowMs : ℕ) (h : FiltInv s) :
    FiltInv resetState ∧ FiltInv (update s d0 d1 d2 nowMs).1 := by
  refine ⟨by decide, ?_⟩
  rcases update_filt_cases s d0 d1 d2 nowMs with hc | hc
  · have hf := filtInv_filterDistances s (mkRaw d0 d1 d2) h
    unfold FiltInv at hf ⊢
    intro i
    rw [hc]
    exact hf i
  · rw [hc]
    decide

/-- C9 witness: the invariant holds at the reset state and is preserved by a
concrete `update` call. -/
theorem C9_witness :
    FiltInv resetState ∧ FiltInv (update resetState 100 0 0 50).1 :=
  C9_filt_in_band resetState 100 0 0 50 (by decide)

/-! ## C10: the 8-bit sample counter wraps -/

/-- Repeated `appendSample` calls, as performed while an episode is tracked. -/
def foldAppend (l : List ((Fin 3 → Bool) × ℕ)) (s : PreState) : PreState :=
  l.foldl (fun st p => appendSample st p.1 p.2) s

lemma foldAppend_sampleCount :
    ∀ (l : List ((Fin 3 → Bool) × ℕ)) (s : PreState),
      s.ep.sampleCount < 256 →
      (foldAppend l s).ep.sampleCount = (s.ep.sampleCount + l.length) % 256 := by
  intro l
  induction l with
  | nil =>
    intro s h
    show s.ep.sampleCount = (s.ep.sampleCount + 0) % 256
    omega
  | cons p l ih =>
    intro s h
    show (foldAppend l (appendSample s p.1 p.2)).ep.sampleCount = _
    have hstep : (appendSample s p.1 p.2).ep.sampleCount =
        (s.ep.sampleCount + 1) % 256 := rfl
    rw [ih _ (by rw [hstep]; omega), hstep, List.length_cons]
    omega

/-- An episode with fewer than 2 accepted samples is always rejected. -/
lemma finalize_fails_lowcount (ep : GestureEpisode) (t : ℕ)
    (h : ep.sampleCount < 2) : (finalizeEpisode ep t).2.1 = false := by
  unfold finalizeEpisode
  rw [if_pos (show ({ ep with tEndMs := t } : GestureEpisode).sampleCount < 2 from h)]

/--
C10: the episode's accepted-sample counter is an 8-bit counter incremented
without saturation on every appended sample, so after `n` appended samples it
equals `n` modulo 256; an episode that accumulates exactly 256 accepted
samples therefore reports `sampleCount = 0` and is rejected by
`finalizeEpisode` through the `sampleCount < 2` failure.
-/
theorem C10_samplecount_wrap (s0 : PreState) (t0 tF : ℕ)
    (l : List ((Fin 3 → Bool) × ℕ)) :
    (∀ (s : PreState) (v : Fin 3 → Bool) (t : ℕ),
        (appendSample s v t).ep.sampleCount = (s.ep.sampleCount + 1) % 256) ∧
      (foldAppend l (startEpisode s0 t0)).ep.sampleCount = l.length % 256 ∧
      (l.length = 256 →
        (foldAppend l (startEpisode s0 t0)).ep.sampleCount = 0 ∧
        (finalizeEpisode (foldAppend l (startEpisode s0 t0)).ep tF).2.1 = false) := by
  have hstart : (startEpisode s0 t0).ep.sampleCount = 0 := rfl
  have hcnt : (foldAppend l (startEpisode s0 t0)).ep.sampleCount =
      l.length % 256 := by
    rw [foldAppend_sampleCount l _ (by rw [hstart]; omega), hstart]
    omega
  refine ⟨fun s v t => rfl, hcnt, fun h256 => ?_⟩
  have h0 : (foldAppend l (startEpisode s0 t0)).ep.sampleCount = 0 := by
    rw [hcnt, h256]
  exact ⟨h0, finalize_fails_lowcount _ tF (by omega)⟩

/-- C10 witness: 256 appended samples starting from a fresh episode leave the
counter at 0 and finalize rejects the episode. -/
theorem C10_witness :
    (foldAppend (List.replicate 256 ((fun _ => false), 0))
        (startEpisode resetState 0)).ep.sampleCount = 0 ∧
      (finalizeEpisode
        (foldAppend (List.replicate 256 ((fun _ => false), 0))
          (startEpisode resetState 0)).ep 100).2.1 = false :=
  (C10_samplecount_wrap resetState 0 100 _).2.2 (by simp)

end Gesture
